import Mathlib

/-!
Verification of the QRNN layer (src/qrnn.py) against its specification.

Shallow embedding conventions:
* Tensors are modeled elementwise: one scalar slot stands for one
  (batch, feature) coordinate, and a time sequence is a `List` of such
  slots.  All gate arithmetic in the source is elementwise, so a scalar
  model is exact for the per-step formulas.
* Scalars are `ℚ` (the source computes with floats; only ring operations
  and externally supplied nonlinearities appear, so any ordered field is
  faithful).  The backend nonlinearities `K.sigmoid` and the configured
  activation are external collaborators and are passed as function
  parameters.
* Python exceptions are modeled with `Except PyError`.
* The Bernoulli sample drawn by `_dropout` is passed in as an explicit
  mask value `m`; the layer only ever multiplies by it.
-/

namespace Qrnn

/-- Kinds of python errors the modeled code can raise (spec section 7 plus
the concrete python exception classes the source actually produces). -/
inductive PyError where
  | assertionError
  | unboundLocalError
  | indexError
  | typeError
  | notImplementedError
  | exception
  deriving DecidableEq

/-- QRNN.step (src/qrnn.py lines 298-310) on one elementwise slot.
`act` is the configured activation, `sig` the backend sigmoid, `d` the
dropout rate (python truthiness: the branch tests `if self.dropout`).
The source computes the gated value into `output` twice and then
overwrites it with `z + f + o` before returning `(output, [output])`;
the shadowed `let` bindings reproduce lines 306-308 exactly. -/
def step (act sig : ℚ → ℚ) (d : ℚ) (z_pre f_in o_pre prev_output : ℚ) : ℚ × List ℚ :=
  let z := act z_pre
  let f := if d ≠ 0 then f_in else sig f_in
  let o := sig o_pre
  let output := f * prev_output + (1 - f) * z
  let output := o * output
  let output := z + f + o
  (output, [output])

/-- QRNN.step as consumed by the scan driver: the driver calls
`step_function(*inputs)` with the three per-timestep slices followed by
the state list (line 299 unpacks `inputs[:3]` and `inputs[3:]`). -/
def stepList (act sig : ℚ → ℚ) (d : ℚ) (xs : List ℚ) (states : List ℚ) : ℚ × List ℚ :=
  step act sig d (xs.getD 0 0) (xs.getD 1 0) (xs.getD 2 0) (states.getD 0 0)

/-- The iteration inside theano.scan (lines 96-101): `_step` returns
`[output] + new_states`; iterating over the time-major slices yields the
per-time output sequence and the per-time list of state lists. -/
def scanStates (stepf : List ℚ → List ℚ → ℚ × List ℚ) :
    List (List ℚ) → List ℚ → List ℚ × List (List ℚ)
  | [], _ => ([], [])
  | sl :: rest, st =>
    let r := stepf sl st
    let next := scanStates stepf rest r.2
    (r.1 :: next.1, r.2 :: next.2)

/-- The dimshuffle to time-major order (line 84): slice `t` collects the
`t`-th element of every input sequence. -/
def timeSlices (inputs : List (List ℚ)) : List (List ℚ) :=
  (List.range (inputs.headD []).length).map (fun t => inputs.map (fun seq => seq.getD t 0))

/-- The over-time sequence of state slot `i`, as theano.scan returns one
sequence per entry of `outputs_info`. -/
def slotSeq (stSeq : List (List ℚ)) (i : Nat) : List ℚ :=
  stSeq.map (fun s => s.getD i 0)

/-- The `results` list produced by theano.scan (line 96): the output
sequence followed by one over-time sequence per initial state; with
`go_backwards` the slices are consumed in reverse and the sequences are
in iteration order. -/
def scanResults (stepf : List ℚ → List ℚ → ℚ × List ℚ)
    (slices : List (List ℚ)) (init : List ℚ) (go_backwards : Bool) :
    List (List ℚ) :=
  let sl := if go_backwards then slices.reverse else slices
  let r := scanStates stepf sl init
  r.1 :: (List.range init.length).map (slotSeq r.2)

/-- Python list indexing `l[i]` including negative indices; out-of-range
access yields `none` (an IndexError at the call site). -/
def pyGet (l : List ℚ) (i : Int) : Option ℚ :=
  if 0 ≤ i then l.get? i.toNat
  else if (-i).toNat ≤ l.length then l.get? (l.length - (-i).toNat)
  else none

/-- The input checks of _rnn (lines 73-80): all inputs must share a single
rank (`assert len(set(ndims)) == 1`), and the last input's rank must be at
least 2 (`assert ndim >= 2` — note the source message claims 'at least 3D'
while the docstring at line 53 says 'at least 2D'). -/
def rnnCheck (ndims : List Nat) : Except PyError Unit :=
  if (ndims.dedup).length ≠ 1 then Except.error PyError.assertionError
  else if ndims.getLastD 0 < 2 then Except.error PyError.assertionError
  else Except.ok ()

/-- The triple _rnn returns (line 117). -/
structure RnnOut where
  last_output : ℚ
  outputs : List ℚ
  states : List ℚ
  deriving DecidableEq

/-- _rnn (lines 47-117).  `ndims` carries the declared tensor ranks for the
checks at lines 76-80; `inputs` are the input sequences (one list over
time per tensor).  With a non-null mask, line 90 executes
`assert "mask is not supported yet!"`, whose non-empty string is truthy,
so no error is raised there; the mask branch assigns neither `results`
nor `outputs`, and line 111 then raises UnboundLocalError.  Otherwise
theano.scan runs; `results` is a list (one output sequence plus one
sequence per state), so line 105 sets `outputs = results[-1]` and line
106 sets `states = results[0:]` (the whole list); `last_output` is
`outputs[-2]` (line 112) and the returned states are `state[-2]` for each
entry of that list (line 116).  `T.squeeze` is the identity for
non-degenerate axes and the trailing dimshuffle (lines 114-115) is a
representation change only, so both are omitted. -/
def rnn (stepf : List ℚ → List ℚ → ℚ × List ℚ) (ndims : List Nat)
    (inputs : List (List ℚ)) (initial_states : List ℚ)
    (go_backwards : Bool) (mask : Option Unit) : Except PyError RnnOut :=
  match rnnCheck ndims with
  | Except.error e => Except.error e
  | Except.ok _ =>
    if mask.isSome then
      if ("mask is not supported yet!" : String) = "" then
        Except.error PyError.assertionError
      else
        Except.error PyError.unboundLocalError
    else
      let results := scanResults stepf (timeSlices inputs) initial_states go_backwards
      let outputs := results.getLastD []
      match pyGet outputs (-2) with
      | none => Except.error PyError.indexError
      | some lo =>
        match results.mapM (fun s => pyGet s (-2)) with
        | none => Except.error PyError.indexError
        | some sts => Except.ok ⟨lo, outputs, sts⟩

/-- QRNN.call output selection (lines 261-264): the full sequence when
return_sequences is set, otherwise the driver's last_output. -/
inductive CallResult where
  | seq (outputs : List ℚ)
  | last (output : ℚ)
  deriving DecidableEq

/-- QRNN.call lines 261-264. -/
def callReturn (return_sequences : Bool) (r : RnnOut) : CallResult :=
  if return_sequences then CallResult.seq r.outputs else CallResult.last r.last_output

/-- QRNN.call stateful update registration (lines 256-259):
`self.updates.append((self.states[i], states[i]))` for every
`i in range(len(states))`; indexing `self.states` past its length raises
IndexError. -/
def registerUpdates (selfStates newStates : List ℚ) : Except PyError (List (ℚ × ℚ)) :=
  (List.range newStates.length).mapM (fun i =>
    match selfStates.get? i, newStates.get? i with
    | some a, some b => Except.ok (a, b)
    | _, _ => Except.error PyError.indexError)

/-- A simple step function used to evaluate the driver on concrete data:
it copies the current input slice to both the output and the single state
slot (as QRNN.step, its output equals its new state). -/
def copyStep : List ℚ → List ℚ → ℚ × List ℚ :=
  fun sl _ => (sl.getD 0 0, [sl.getD 0 0])

/-- keras.utils.np_utils.conv_output_length, the external helper called at
line 203: None propagates; for border 'valid' the length is
`input_length - filter_size + 1`, for 'same' it is unchanged, for 'full'
it is `input_length + filter_size - 1`; the result is divided by the
stride with python floor division after adding `stride - 1`. -/
def conv_output_length (input_length : Option Int) (filter_size : Int)
    (border_mode : String) (stride : Int) : Option Int :=
  match input_length with
  | none => none
  | some l =>
    let out :=
      if border_mode = "same" then l
      else if border_mode = "valid" then l - filter_size + 1
      else l + filter_size - 1
    some ((out + stride - 1).fdiv stride)

/-- QRNN.get_output_shape_for (lines 200-210): shapes are lists of
optional dimensions (None = unknown).  The guard `if length:` skips the
convolution formula when the time entry is None or 0. -/
def get_output_shape_for (window_size stride output_dim : Int)
    (return_sequences : Bool) (input_shape : List (Option Int)) :
    List (Option Int) :=
  let batch := input_shape.getD 0 none
  let length := input_shape.getD 1 none
  let length :=
    match length with
    | none => none
    | some l =>
      if l = 0 then some 0
      else conv_output_length (some (l + window_size - 1)) window_size "valid" stride
  if return_sequences then [batch, length, some output_dim]
  else [batch, some output_dim]

/-- The causal padding of preprocess_input (lines 273-274):
`K.asymmetric_temporal_padding(x, window_size-1, 0)` prepends
`window_size - 1` zero timesteps when `window_size > 1`. -/
def causalPad (window_size : Nat) (xs : List ℚ) : List ℚ :=
  if 1 < window_size then List.replicate (window_size - 1) 0 ++ xs else xs

/-- A stride-1 valid 1-D convolution on scalar sequences, as performed per
gate by `K.conv2d(..., border_mode='valid')` at lines 282-284 (the dummy
spatial dimension added at line 275 and removed at line 285 is a
representation detail): one output per window position. -/
def conv1dValid (kernel : List ℚ) (xs : List ℚ) : List ℚ :=
  (List.range (xs.length + 1 - kernel.length)).map (fun t =>
    (List.range kernel.length).foldl
      (fun acc j => acc + xs.getD (t + j) 0 * kernel.getD j 0) 0)

/-- The configuration fields QRNN.__init__ stores on the instance
(lines 129-167).  The `init` and `activation` identifiers and the
regularizer/constraint configs are modeled as strings (their keras
resolution is an external collaborator and round-trips identifiers);
`subsample` is the pair `(subsample_length, 1)` built at line 145.
Parameter values (`weights`) are excluded. -/
structure QRNNLayer where
  return_sequences : Bool
  go_backwards : Bool
  stateful : Bool
  unroll : Bool
  output_dim : Nat
  window_size : Nat
  subsample : Nat × Nat
  bias : Bool
  init : String
  activation : String
  W_regularizer : Option String
  b_regularizer : Option String
  W_constraint : Option String
  b_constraint : Option String
  dropout : ℚ
  input_dim : Option Nat
  input_length : Option Nat
  deriving DecidableEq

/-- QRNN.__init__ (lines 129-167) with the constructor's parameter order;
the python defaults are window_size=2, return_sequences=False,
go_backwards=False, stateful=False, unroll=False, subsample_length=1,
init='uniform', activation='tanh', regularizers/constraints None,
dropout=0, bias=True, input_dim=None, input_length=None. -/
def QRNN_mk (output_dim window_size : Nat)
    (return_sequences go_backwards stateful unroll : Bool)
    (subsample_length : Nat) (init activation : String)
    (W_regularizer b_regularizer W_constraint b_constraint : Option String)
    (dropout : ℚ) (bias : Bool) (input_dim input_length : Option Nat) :
    QRNNLayer :=
  ⟨return_sequences, go_backwards, stateful, unroll, output_dim, window_size,
   (subsample_length, 1), bias, init, activation,
   W_regularizer, b_regularizer, W_constraint, b_constraint,
   dropout, input_dim, input_length⟩

/-- The key-value structure QRNN.get_config exports (lines 316-328): these
are exactly the keys the source writes (the generic base-layer keys
aside). -/
structure ExportedConfig where
  output_dim : Nat
  init : String
  window_size : Nat
  subsample_length : Nat
  activation : String
  W_regularizer : Option String
  b_regularizer : Option String
  W_constraint : Option String
  b_constraint : Option String
  bias : Bool
  input_dim : Option Nat
  input_length : Option Nat
  deriving DecidableEq

/-- QRNN.get_config (lines 316-330). -/
def get_config (l : QRNNLayer) : ExportedConfig :=
  ⟨l.output_dim, l.init, l.window_size, l.subsample.1, l.activation,
   l.W_regularizer, l.b_regularizer, l.W_constraint, l.b_constraint,
   l.bias, l.input_dim, l.input_length⟩

/-- Constructing a layer from an exported configuration (keras
`Layer.from_config` calls the constructor with the exported keys as
keyword arguments): every field get_config does not export takes its
constructor default (False, False, False, False, 0). -/
def from_config (e : ExportedConfig) : QRNNLayer :=
  QRNN_mk e.output_dim e.window_size false false false false
    e.subsample_length e.init e.activation
    e.W_regularizer e.b_regularizer e.W_constraint e.b_constraint
    0 e.bias e.input_dim e.input_length

/-- The input_spec shape recorded by __init__ (line 162):
`InputSpec(ndim=3)` carries no concrete shape, so the spec's shape
attribute is None until build overwrites it at line 177. -/
def initInputSpecShape : Option (List (Option Nat)) := none

/-- QRNN.reset_states (lines 227-237): asserts the layer is stateful, then
reads `self.input_spec[0].shape` (the shape argument here); subscripting
a None shape with `input_shape[0]` raises TypeError; a missing entry
raises IndexError; a falsy (None or 0) batch entry raises the explicit
Exception of line 231; otherwise the single state slot becomes a zero
array of shape (batch, output_dim), modeled by its shape. -/
def reset_states (stateful : Bool) (specShape : Option (List (Option Nat)))
    (output_dim : Nat) : Except PyError (List (Option (Nat × Nat))) :=
  if stateful = false then Except.error PyError.assertionError
  else
    match specShape with
    | none => Except.error PyError.typeError
    | some shape =>
      match shape.get? 0 with
      | none => Except.error PyError.indexError
      | some none => Except.error PyError.exception
      | some (some 0) => Except.error PyError.exception
      | some (some b) => Except.ok [some (b, output_dim)]

/-- QRNN.build, state-handling prefix (lines 169-177): for a stateful
layer it calls reset_states (line 171) before line 177 records the
supplied input_shape into self.input_spec, so reset reads the spec as
recorded at construction time; a non-stateful layer gets the single
placeholder state slot `[None]`.  The parameter allocation that follows
is outside the modeled claims. -/
def build (stateful : Bool) (specShape : Option (List (Option Nat)))
    (output_dim : Nat) (input_shape : List (Option Nat)) :
    Except PyError (List (Option (Nat × Nat))) :=
  if stateful then reset_states stateful specShape output_dim
  else Except.ok [none]

/-- _dropout (lines 15-44): raises for a level outside [0,1); otherwise
multiplies x by the sampled binary mask m (`x *= random_tensor`); the
rescaling by the retain probability is commented out at line 43
('no scale for QRNN'). -/
def dropoutApply (level m x : ℚ) : Except PyError ℚ :=
  if level < 0 ∨ 1 ≤ level then Except.error PyError.exception
  else Except.ok (x * m)

/-- The retain probability of _dropout (line 34): the Bernoulli sample is
drawn with `p = 1 - level`. -/
def retain_prob (level : ℚ) : ℚ := 1 - level

/-- The forget-gate value produced by preprocess_input (lines 291-294) on
one elementwise slot: when dropout is configured,
`K.in_train_phase(1 - _dropout(1 - K.sigmoid(f), dropout), K.sigmoid(f))`
(both branches are built eagerly, so an invalid level raises in either
phase); without dropout the raw pre-activation is passed through for the
step function to apply sigmoid itself. -/
def preprocessForget (sig : ℚ → ℚ) (level : ℚ) (train : Bool) (m f : ℚ) :
    Except PyError ℚ :=
  if level ≠ 0 then
    match dropoutApply level m (1 - sig f) with
    | Except.error e => Except.error e
    | Except.ok v => Except.ok (if train then 1 - v else sig f)
  else Except.ok f

/-- Helper: a step function whose value does not depend on the incoming
states leaves the whole scan independent of the initial states. -/
theorem scanStates_state_irrel (stepf : List ℚ → List ℚ → ℚ × List ℚ)
    (hstep : ∀ xs s1 s2, stepf xs s1 = stepf xs s2) :
    ∀ (sl : List (List ℚ)) (i1 i2 : List ℚ),
      scanStates stepf sl i1 = scanStates stepf sl i2 := by
  intro sl
  induction sl with
  | nil => intro i1 i2; rfl
  | cons h t ih =>
    intro i1 i2
    simp only [scanStates]
    rw [hstep h i1 i2]

/-- C1: for every timestep the recurrence step computes
candidate = activation(candidate_preact), forget_gate = sigmoid of the
forget value unless dropout is configured (then the forget value is used
as-is), output_gate = sigmoid(output_preact), and returns the sum
candidate + forget_gate + output_gate as the new state — the gated value
`o * (f*prev + (1-f)*z)` is computed and discarded (the result does not
mention `prev`) — packaged as (new_state, [new_state]). -/
theorem step_computes_sum (act sig : ℚ → ℚ) (d z f o prev : ℚ) :
    step act sig d z f o prev =
      (act z + (if d ≠ 0 then f else sig f) + sig o,
       [act z + (if d ≠ 0 then f else sig f) + sig o]) := rfl

/-- C2: evaluation of the driver at a concrete three-timestep input with a
step whose output equals its state (as QRNN.step): the full output
sequence is [10, 20, 30] yet last_output — what the layer returns when
return_sequences is False — is 20, the output of timestep T-2, not the
final timestep's output 30, contradicting both the claim and _rnn's own
docstring ('the latest output of the rnn', line 66). -/
theorem rnn_last_output_second_to_last :
    rnn copyStep [3] [[10, 20, 30]] [0] false none =
      Except.ok ⟨20, [10, 20, 30], [20, 20]⟩ ∧
    callReturn false ⟨20, [10, 20, 30], [20, 20]⟩ = CallResult.last 20 ∧
    callReturn true ⟨20, [10, 20, 30], [20, 20]⟩ = CallResult.seq [10, 20, 30] ∧
    ([10, 20, 30] : List ℚ).getLastD 0 = 30 ∧
    (20 : ℚ) ≠ 30 :=
  ⟨rfl, rfl, rfl, rfl, by decide⟩

/-- C3: with stride 1 the computed output time length always equals the
input time length T: the shape formula evaluates
conv_output_length(T + w - 1, w, valid, 1) to T, the inferred output
shape is (batch, T, output_dim) when return_sequences else
(batch, output_dim), and at the data level the causal pad of w-1 zero
timesteps followed by a valid convolution with a length-w kernel yields
exactly T output timesteps. -/
theorem output_length_preserved (w d T : Int) (b f : Option Int) (rs : Bool)
    (kernel xs : List ℚ) (hk : 1 ≤ kernel.length) :
    conv_output_length (some (T + w - 1)) w "valid" 1 = some T ∧
    get_output_shape_for w 1 d rs [b, some T, f] =
      (if rs then [b, some T, some d] else [b, some d]) ∧
    (conv1dValid kernel (causalPad kernel.length xs)).length = xs.length := by
  have hconv : conv_output_length (some (T + w - 1)) w "valid" 1 = some T := by
    unfold conv_output_length
    have h : T + w - 1 - w + 1 + 1 - 1 = T := by ring
    simp only [String.reduceEq, if_false, if_true, reduceIte]
    rw [h, Int.fdiv_one]
  refine ⟨hconv, ?_, ?_⟩
  · unfold get_output_shape_for
    by_cases hT : T = 0
    · subst hT; simp
    · simp [hT, hconv]
  · unfold conv1dValid causalPad
    by_cases hw : 1 < kernel.length
    · simp [hw]
      omega
    · simp [hw]
      omega

/-- Witness for C3 at B=2, T=5, F=3, output_dim=4, window_size=2,
stride=1 (the spec's example scenario). -/
theorem output_length_preserved_witness :
    (1 ≤ ([1, 1] : List ℚ).length) ∧
    (conv_output_length (some (5 + 2 - 1)) 2 "valid" 1 = some 5 ∧
     get_output_shape_for 2 1 4 true [some 2, some 5, some 3] =
       (if true then [some 2, some 5, some 4] else [some 2, some 4]) ∧
     (conv1dValid [1, 1] (causalPad ([1, 1] : List ℚ).length
        [10, 20, 30, 40, 50])).length = ([10, 20, 30, 40, 50] : List ℚ).length) :=
  ⟨by decide,
   output_length_preserved 2 4 5 (some 2) (some 3) true [1, 1]
     [10, 20, 30, 40, 50] (by decide)⟩

/-- C4: evaluation of a stateful call at a concrete three-timestep input:
the true final state of the scan is [30], but the driver returns
states = [20, 20] — the timestep T-2 values, one entry per scan result
sequence rather than one per state slot — so the update-registration
loop of QRNN.call reads self.states[1], which does not exist for the
single-slot layer, raising IndexError; even the slot-0 entry is 20, not
the final state 30.  Stateful two-segment execution therefore cannot
match the concatenated run. -/
theorem stateful_update_broken :
    rnn copyStep [3] [[10, 20, 30]] [0] false none =
      Except.ok ⟨20, [10, 20, 30], [20, 20]⟩ ∧
    (scanStates copyStep (timeSlices [[10, 20, 30]]) [0]).2.getLastD [] = [30] ∧
    registerUpdates [0] [20, 20] = Except.error PyError.indexError ∧
    (20 : ℚ) ≠ 30 :=
  ⟨rfl, rfl, rfl, by decide⟩

/-- C5 counterexample: a layer constructed with return_sequences=True
round-trips through get_config/from_config to return_sequences=False,
because get_config does not export return_sequences (nor go_backwards,
stateful, unroll, dropout), so the claim that every constructor field is
reproduced fails. -/
theorem config_roundtrip_cex :
    (from_config (get_config (QRNN_mk 4 2 true false false false 1
        "uniform" "tanh" none none none none 0 true none none))).return_sequences
      = false ∧
    (QRNN_mk 4 2 true false false false 1
        "uniform" "tanh" none none none none 0 true none none).return_sequences
      = true :=
  ⟨rfl, rfl⟩

/-- C5 amended: the get_config/from_config round trip reproduces exactly
the exported fields — output_dim, window_size, subsample stride,
activation and initializer identifiers, regularizer/constraint configs,
bias, input_dim, input_length — while return_sequences, go_backwards,
stateful, unroll and dropout revert to their constructor defaults. -/
theorem config_roundtrip_amended (l : QRNNLayer) :
    (from_config (get_config l)).output_dim = l.output_dim ∧
    (from_config (get_config l)).window_size = l.window_size ∧
    (from_config (get_config l)).subsample = (l.subsample.1, 1) ∧
    (from_config (get_config l)).init = l.init ∧
    (from_config (get_config l)).activation = l.activation ∧
    (from_config (get_config l)).W_regularizer = l.W_regularizer ∧
    (from_config (get_config l)).b_regularizer = l.b_regularizer ∧
    (from_config (get_config l)).W_constraint = l.W_constraint ∧
    (from_config (get_config l)).b_constraint = l.b_constraint ∧
    (from_config (get_config l)).bias = l.bias ∧
    (from_config (get_config l)).input_dim = l.input_dim ∧
    (from_config (get_config l)).input_length = l.input_length ∧
    (from_config (get_config l)).return_sequences = false ∧
    (from_config (get_config l)).go_backwards = false ∧
    (from_config (get_config l)).stateful = false ∧
    (from_config (get_config l)).unroll = false ∧
    (from_config (get_config l)).dropout = 0 :=
  ⟨rfl, rfl, rfl, rfl, rfl, rfl, rfl, rfl, rfl, rfl, rfl, rfl, rfl, rfl,
   rfl, rfl, rfl⟩

/-- C6: on any invocation that passes the rank checks, supplying a
non-null mask makes the driver fail with UnboundLocalError — NOT with a
NotImplemented error — because `assert "mask is not supported yet!"`
(line 90) asserts a truthy non-empty string and raises nothing, after
which line 111 reads the never-assigned `outputs`. -/
theorem mask_error_kind (stepf : List ℚ → List ℚ → ℚ × List ℚ)
    (ndims : List Nat) (inputs : List (List ℚ)) (init : List ℚ) (gb : Bool)
    (hok : rnnCheck ndims = Except.ok ()) :
    rnn stepf ndims inputs init gb (some ()) =
      Except.error PyError.unboundLocalError ∧
    PyError.unboundLocalError ≠ PyError.notImplementedError := by
  refine ⟨?_, by decide⟩
  simp only [rnn, hok, Option.isSome_some, if_true]
  rw [if_neg (by decide)]

/-- Witness for C6 at a concrete rank-3 single input. -/
theorem mask_error_kind_witness :
    rnnCheck [3] = Except.ok () ∧
    rnn copyStep [3] [[1]] [0] false (some ()) =
      Except.error PyError.unboundLocalError :=
  ⟨rfl, (mask_error_kind copyStep [3] [[1]] [0] false rfl).1⟩

/-- C7 counterexample: a single input of rank 2 passes the driver's
checks (the assert is `ndim >= 2`, although its message says 'at least
3D'), refuting the claim that any rank below 3 fails. -/
theorem rank_check_rank2_cex : rnnCheck [2] = Except.ok () := rfl

/-- C7 amended: the driver's input checks succeed exactly when all input
ranks agree and the (common) last rank is at least 2; otherwise an
assertion (InvalidInput) failure is raised — so the enforced minimum
rank is 2, not 3. -/
theorem rank_check_characterization (ndims : List Nat) :
    rnnCheck ndims = Except.ok () ↔
      ((ndims.dedup).length = 1 ∧ 2 ≤ ndims.getLastD 0) := by
  unfold rnnCheck
  generalize (ndims.dedup).length = n
  generalize ndims.getLastD 0 = x
  by_cases hn : n = 1 <;> by_cases hx2 : 2 ≤ x
  · simp [hn, hx2, Nat.not_lt.mpr hx2]
  · simp [hn, hx2, Nat.not_le.mp hx2]
  · simp [hn]
  · simp [hn]

/-- C8: with dropout strictly between 0 and 1, in training mode the
forget value handed to the recurrence is 1 - m * (1 - sigmoid(f_pre))
where m is the sampled binary mask (applied without rescaling — _dropout
line 43 is commented out), in inference mode it is exactly
sigmoid(f_pre), and the mask's keep probability is 1 - dropout. -/
theorem dropout_forget_value (sig : ℚ → ℚ) (d m fp : ℚ)
    (h1 : 0 < d) (h2 : d < 1) :
    preprocessForget sig d true m fp = Except.ok (1 - m * (1 - sig fp)) ∧
    preprocessForget sig d false m fp = Except.ok (sig fp) ∧
    retain_prob d = 1 - d := by
  have hcond : ¬ (d < 0 ∨ 1 ≤ d) := by
    push_neg
    exact ⟨h1.le, h2⟩
  refine ⟨?_, ?_, rfl⟩ <;>
    simp [preprocessForget, dropoutApply, h1.ne', hcond, mul_comm]

/-- Witness for C8 at dropout 1/2, mask 0, identity in place of the
backend sigmoid, pre-activation 3. -/
theorem dropout_forget_value_witness :
    (0 : ℚ) < 1/2 ∧ (1 : ℚ)/2 < 1 ∧
    preprocessForget (fun x => x) (1/2) true 0 3 =
      Except.ok (1 - 0 * (1 - 3)) :=
  ⟨one_half_pos, one_half_lt_one,
   (dropout_forget_value (fun x => x) (1/2) 0 3 one_half_pos one_half_lt_one).1⟩

/-- C9: building a stateful layer fails with TypeError for every supplied
input shape (batch known or not), because build calls reset_states
(line 171) before line 177 stores the shape into self.input_spec, and
the constructor-time spec carries no shape — so `input_shape[0]`
subscripts None.  No stateful instance is ever successfully built. -/
theorem stateful_build_always_fails (output_dim : Nat)
    (input_shape : List (Option Nat)) :
    build true initInputSpecShape output_dim input_shape =
      Except.error PyError.typeError := rfl

/-- C10: the recurrence step's output and new state are identical for any
two previous states (the gated combination is overwritten by z + f + o),
and consequently the whole scan — outputs at every timestep and all
carried states — is independent of the initial state. -/
theorem step_state_independent (act sig : ℚ → ℚ) (d z f o s1 s2 : ℚ)
    (slices : List (List ℚ)) (init1 init2 : List ℚ) :
    step act sig d z f o s1 = step act sig d z f o s2 ∧
    scanStates (stepList act sig d) slices init1 =
      scanStates (stepList act sig d) slices init2 :=
  ⟨rfl, scanStates_state_irrel (stepList act sig d) (fun _ _ _ => rfl)
    slices init1 init2⟩

end Qrnn
